import Mathlib

/-!
# Shallow embedding of the deployment backup/rollback manager (deploy.js)

The script deploys a static site to a remote host over ssh/rsync.  Every
remote interaction is an awaited child process (`spawn` via `runCommand`);
the embedding therefore models the outside world as an `Env` that fixes the
exit code and captured output of each child process the script may spawn,
and every operation returns, next to its result, the ordered list of remote
commands it issued (`RemoteCmd` trace).

Functions are translated one for one from the source:
`runCommand`, `testConnection`, `createBackup`, `cleanOldBackups`,
`deployFiles`, `rollback`, `confirm` (as `confirmAccepts`), `deploy`
and the CLI dispatcher `main` (as `mainRun`).
-/

set_option linter.unusedVariables false

namespace DeployJs

/-- Exit code of one spawned child process together with the output the
child wrote to its stdout/stderr streams.  Whether `runCommand` ever sees
that output depends on its `silent` option — see `runCommand`. -/
structure CmdOutcome where
  code : Nat
  stdout : String
  stderr : String
  deriving Repr, DecidableEq

/-- The message of the `Error` that `runCommand` rejects with on a non-zero
exit code, built from the **accumulated** (captured) output:
`Command failed with code ${code}\n${stderr || stdout}` — JavaScript `||`
picks `stdout` exactly when `stderr` is the empty string. -/
def cmdErrorMsg (o : CmdOutcome) : String :=
  "Command failed with code " ++ toString o.code ++ "\n" ++
    (if o.stderr = "" then o.stdout else o.stderr)

/-- `runCommand(command, args, options)`: only when `options.silent` is set
is `stdio` piped and the output accumulated into `stdout`/`stderr`;
otherwise `stdio` is `"inherit"` and the accumulators stay empty strings.
On exit 0 it resolves with the accumulated output; otherwise it rejects
with `cmdErrorMsg` over the accumulated output — so a non-silent command
always rejects with an empty output tail, whatever the child wrote. -/
def runCommand (silent : Bool) (o : CmdOutcome) : Except String CmdOutcome :=
  let captured : CmdOutcome := if silent then o else ⟨o.code, "", ""⟩
  if o.code = 0 then Except.ok captured else Except.error (cmdErrorMsg captured)

/-- The deployment configuration object (`DEFAULT_CONFIG` merged with the
persisted `deploy-config.json`). -/
structure Config where
  host : String
  user : String
  port : String
  keyPath : String
  remotePath : String
  backupPath : String
  localPath : String
  exclude : List String
  maxBackups : Nat
  requireConfirmation : Bool
  deriving Repr

/-- One remote command issued by the script, abstracted by its role:
`sshEcho` is the connectivity probe, `sshMkdirBackupRoot` is
`mkdir -p backupPath`, `sshCopySiteToBackup n` is
`cp -r remotePath backupPath/n`, `sshListBackups` is `ls -1t backupPath`,
`sshDeleteBackup n` is `rm -rf backupPath/n`, `rsyncSync args` is the rsync
invocation with its argument vector, and `sshRestore n` is the combined
`rm -rf remotePath && cp -r backupPath/n remotePath` used by rollback. -/
inductive RemoteCmd where
  | sshEcho : RemoteCmd
  | sshMkdirBackupRoot : RemoteCmd
  | sshCopySiteToBackup : String → RemoteCmd
  | sshListBackups : RemoteCmd
  | sshDeleteBackup : String → RemoteCmd
  | rsyncSync : List String → RemoteCmd
  | sshRestore : String → RemoteCmd
  deriving Repr, DecidableEq

/-- The outside world of one script run: the `HOME` environment variable,
whether `fs.existsSync(config.localPath)` holds, the answer typed at the
confirmation prompt, the ISO timestamp `new Date().toISOString()` returns,
and the outcome of each child process the run may spawn (`deleteCmd` gives
the outcome of `rm -rf backupPath/<name>` per backup name). -/
structure Env where
  home : String
  localPathExists : Bool
  answer : String
  timestamp : String
  echoCmd : CmdOutcome
  mkdirCmd : CmdOutcome
  copyCmd : CmdOutcome
  listCmd : CmdOutcome
  deleteCmd : String → CmdOutcome
  rsyncCmd : CmdOutcome
  restoreCmd : CmdOutcome

/-- JavaScript `String.prototype.trim`: strip leading and trailing
whitespace.  Implemented by structural recursion over the character list so
that the kernel can evaluate it on literals. -/
def jsTrim (s : String) : String :=
  String.mk
    (((s.data.dropWhile Char.isWhitespace).reverse.dropWhile Char.isWhitespace).reverse)

/-- Helper for `jsSplitNewline`: walk the characters, cutting at `'\n'`. -/
def splitLinesAux : List Char → List Char → List String
  | [], acc => [String.mk acc.reverse]
  | c :: cs, acc =>
    if c = '\n' then String.mk acc.reverse :: splitLinesAux cs []
    else splitLinesAux cs (c :: acc)

/-- JavaScript `split("\n")`: cut the string at every newline (the empty
string yields `[""]`, a trailing newline yields a trailing `""`). -/
def jsSplitNewline (s : String) : List String :=
  splitLinesAux s.data []

/-- JavaScript `String.prototype.toLowerCase`, restricted to the per-character
lowercasing relevant here (ASCII letters). -/
def jsToLower (s : String) : String :=
  String.mk (s.data.map Char.toLower)

/-- `config.keyPath.replace(/^~/, process.env.HOME)`: replace a leading `~`
with the home directory. -/
def expandTilde (home s : String) : String :=
  match s.data with
  | '~' :: rest => home ++ String.mk rest
  | _ => s

/-- `testConnection(config)`: run `echo` on the remote host (with
`{ silent: true }`); true on exit 0, false otherwise (the catch swallows
the rejection). -/
def testConnection (env : Env) : List RemoteCmd × Bool :=
  ([RemoteCmd.sshEcho],
   match runCommand true env.echoCmd with
   | Except.ok _ => true
   | Except.error _ => false)

/-- `result.stdout.trim().split("\n").filter(Boolean)`: the parsed backup
listing (non-empty lines of the trimmed `ls -1t` output). -/
def parseBackups (stdout : String) : List String :=
  (jsSplitNewline (jsTrim stdout)).filter (fun s => s ≠ "")

/-- `new Date().toISOString().replace(/[:.]/g, "-")`: every `:` and `.`
becomes `-`. -/
def sanitizeTimestamp (s : String) : String :=
  String.mk (s.data.map (fun c => if c = ':' ∨ c = '.' then '-' else c))

/-- The backup name `backup-<sanitized timestamp>` computed by
`createBackup`. -/
def backupName (env : Env) : String :=
  "backup-" ++ sanitizeTimestamp env.timestamp

/-- The `for (const backup of toDelete)` loop of `cleanOldBackups`:
issue `rm -rf` per name in order (each with `{ silent: true }`); a non-zero
exit rejects and stops the loop (the rejection escapes to the catch in
`cleanOldBackups`).  Returns the commands actually issued and the loop
outcome. -/
def deleteLoop (env : Env) : List String → List RemoteCmd × Except String Unit
  | [] => ([], Except.ok ())
  | n :: rest =>
    match runCommand true (env.deleteCmd n) with
    | Except.ok _ =>
        let r := deleteLoop env rest
        (RemoteCmd.sshDeleteBackup n :: r.1, r.2)
    | Except.error e => ([RemoteCmd.sshDeleteBackup n], Except.error e)

/-- `cleanOldBackups(config)`: list the backups newest-first (with
`{ silent: true }`, so the listing output is captured); when the count
exceeds `maxBackups`, delete `backups.slice(maxBackups)` in order.  The
whole body is wrapped in try/catch, so every failure (listing or deletion)
is swallowed and only the trace of issued commands remains. -/
def cleanOldBackups (config : Config) (env : Env) : List RemoteCmd :=
  match runCommand true env.listCmd with
  | Except.error _ => [RemoteCmd.sshListBackups]
  | Except.ok res =>
    let backups := parseBackups res.stdout
    if backups.length > config.maxBackups then
      RemoteCmd.sshListBackups :: (deleteLoop env (backups.drop config.maxBackups)).1
    else [RemoteCmd.sshListBackups]

/-- `createBackup(config)`: `mkdir -p` the backup root (with
`{ silent: true }`), `cp -r` the live site into `backupPath/<backupName>`
(no options, hence non-silent: its output is inherited, never captured),
then run `cleanOldBackups`; resolves with the backup name, and any
mkdir/copy rejection is re-thrown after logging. -/
def createBackup (config : Config) (env : Env) :
    List RemoteCmd × Except String String :=
  match runCommand true env.mkdirCmd with
  | Except.error e => ([RemoteCmd.sshMkdirBackupRoot], Except.error e)
  | Except.ok _ =>
    match runCommand false env.copyCmd with
    | Except.error e =>
        ([RemoteCmd.sshMkdirBackupRoot,
          RemoteCmd.sshCopySiteToBackup (backupName env)],
         Except.error e)
    | Except.ok _ =>
        (RemoteCmd.sshMkdirBackupRoot ::
           RemoteCmd.sshCopySiteToBackup (backupName env) ::
           cleanOldBackups config env,
         Except.ok (backupName env))

/-- The rsync argument vector built by `deployFiles`:
`["-avz", "--delete", dryRun ? "--dry-run" : "", ...excludeArgs, "-e",
ssh…, localPath/, user@host:remotePath/].filter(Boolean)` — the final
filter drops empty strings. -/
def rsyncArgs (config : Config) (env : Env) (dryRun : Bool) : List String :=
  (["-avz", "--delete", if dryRun then "--dry-run" else ""] ++
     config.exclude.flatMap (fun e => ["--exclude", e]) ++
     ["-e", "ssh -i " ++ expandTilde env.home config.keyPath ++ " -p " ++ config.port,
      config.localPath ++ "/",
      config.user ++ "@" ++ config.host ++ ":" ++ config.remotePath ++ "/"]).filter
    (fun s => s ≠ "")

/-- `deployFiles(config, dryRun)`: run rsync with `rsyncArgs` and **no
options** — rsync is non-silent, its stdio is inherited and never captured.
Resolves `true` on exit 0 and re-throws the `runCommand` rejection
otherwise. -/
def deployFiles (config : Config) (env : Env) (dryRun : Bool) :
    List RemoteCmd × Except String Bool :=
  match runCommand false env.rsyncCmd with
  | Except.ok _ => ([RemoteCmd.rsyncSync (rsyncArgs config env dryRun)], Except.ok true)
  | Except.error e => ([RemoteCmd.rsyncSync (rsyncArgs config env dryRun)], Except.error e)

/-- Result of `rollback`: its boolean return value, the remote commands it
issued, and the console lines it printed itself. -/
structure RollbackResult where
  value : Bool
  trace : List RemoteCmd
  logs : List String
  deriving Repr, DecidableEq

/-- `rollback(config, backupName = null)`: list backups newest-first (with
`{ silent: true }`); empty listing → false;
`const targetBackup = backupName || backups[0]` (JavaScript `||`, so a
`null` **or empty-string** argument falls through to the newest entry); a
target absent from the listing → false; otherwise issue the combined
remove-then-copy command (non-silent, output inherited) and return
true/false by its exit status.  The enclosing try/catch turns every
rejection into `false`, so the function never throws. -/
def rollback (config : Config) (env : Env) (requestedName : Option String) :
    RollbackResult :=
  let intro := "⏮️  Rolling back to previous version..."
  match runCommand true env.listCmd with
  | Except.error e =>
      ⟨false, [RemoteCmd.sshListBackups], [intro, "❌ Rollback failed: " ++ e]⟩
  | Except.ok res =>
    let backups := parseBackups res.stdout
    if backups.length = 0 then
      ⟨false, [RemoteCmd.sshListBackups],
       [intro, "❌ No backups available for rollback"]⟩
    else
      let targetBackup :=
        match requestedName with
        | none => backups.headD ""
        | some n => if n = "" then backups.headD "" else n
      if backups.contains targetBackup then
        match runCommand false env.restoreCmd with
        | Except.ok _ =>
            ⟨true, [RemoteCmd.sshListBackups, RemoteCmd.sshRestore targetBackup],
             [intro, "📦 Rolling back to: " ++ targetBackup, "✅ Rollback successful"]⟩
        | Except.error e =>
            ⟨false, [RemoteCmd.sshListBackups, RemoteCmd.sshRestore targetBackup],
             [intro, "📦 Rolling back to: " ++ targetBackup, "❌ Rollback failed: " ++ e]⟩
      else
        ⟨false, [RemoteCmd.sshListBackups],
         [intro, "❌ Backup not found: " ++ targetBackup, "Available backups:"] ++
           backups.map (fun b => "  - " ++ b)⟩

/-- `confirm(message)` resolves `answer.toLowerCase() === "y"`; the deploy
proceeds exactly when this is true. -/
def confirmAccepts (answer : String) : Bool :=
  jsToLower answer == "y"

/-- Result of `deploy`: its boolean return value, whether the interactive
confirmation prompt was shown, and the remote commands issued. -/
structure DeployResult where
  success : Bool
  prompted : Bool
  trace : List RemoteCmd
  deriving Repr, DecidableEq

/-- `deploy(options)`: abort if `config.host` is empty or the local source
directory is missing (before any remote command); test the connection;
show the confirmation prompt only when `requireConfirmation && !dryRun`
and abort on a declined answer; then (non-dry-run only) `createBackup`,
and finally `deployFiles` — the try/catch maps any backup/sync rejection
to `false`. -/
def deploy (config : Config) (env : Env) (dryRun : Bool) : DeployResult :=
  if config.host = "" then ⟨false, false, []⟩
  else if !env.localPathExists then ⟨false, false, []⟩
  else
    let conn := testConnection env
    if !conn.2 then ⟨false, false, conn.1⟩
    else
      let prompted := config.requireConfirmation && !dryRun
      if prompted && !confirmAccepts env.answer then ⟨false, prompted, conn.1⟩
      else
        if dryRun then
          match deployFiles config env true with
          | (tr, Except.ok _) => ⟨true, prompted, conn.1 ++ tr⟩
          | (tr, Except.error _) => ⟨false, prompted, conn.1 ++ tr⟩
        else
          match createBackup config env with
          | (btr, Except.error _) => ⟨false, prompted, conn.1 ++ btr⟩
          | (btr, Except.ok _) =>
            match deployFiles config env false with
            | (tr, Except.ok _) => ⟨true, prompted, conn.1 ++ btr ++ tr⟩
            | (tr, Except.error _) => ⟨false, prompted, conn.1 ++ btr ++ tr⟩

/-- The CLI dispatcher `main()`: `--help`/`-h` exits 0; `--config` runs the
interactive setup (whose connection test outcome does not affect the exit
code — `process.exit(0)` follows unconditionally); `--rollback` exits by
the boolean of `rollback`; otherwise run `deploy` with the dry-run flag and
exit by its boolean.  Returns (exit code, remote commands issued). -/
def mainRun (args : List String) (config : Config) (env : Env) :
    Nat × List RemoteCmd :=
  if args.contains "--help" || args.contains "-h" then (0, [])
  else if args.contains "--config" then
    (0, (testConnection env).1)
  else if args.contains "--rollback" then
    let r := rollback config env none
    (if r.value then 0 else 1, r.trace)
  else
    let r := deploy config env (args.contains "--dry-run")
    (if r.success then 0 else 1, r.trace)

/-! ## Concrete fixtures used by witnesses and counterexamples -/

/-- A fully populated configuration with `maxBackups = 2`. -/
def cfgStd : Config :=
  ⟨"droplet", "root", "22", "~/.ssh/id_rsa", "/var/www/site", "/var/www/bk",
   "/local/public", [".git", "*.log"], 2, true⟩

/-- A child process that exited 0 with no output. -/
def okOut : CmdOutcome :=
  ⟨0, "", ""⟩

/-- A child process that exited 1 with output on stderr. -/
def failOut : CmdOutcome :=
  ⟨1, "", "boom"⟩

/-- A world where every child process succeeds and `ls -1t` lists three
backups newest-first. -/
def envAllOk : Env :=
  { home := "/root", localPathExists := true, answer := "y",
    timestamp := "2025-01-02T03:04:05.006Z",
    echoCmd := okOut, mkdirCmd := okOut, copyCmd := okOut,
    listCmd := ⟨0, "b3\nb2\nb1", ""⟩, deleteCmd := fun _ => okOut,
    rsyncCmd := okOut, restoreCmd := okOut }

/-! ## Helper lemmas -/

/-- When every per-backup `rm -rf` exits 0, the deletion loop issues exactly
one delete command per name, in listing order. -/
theorem deleteLoop_all_ok (env : Env) (names : List String)
    (h : ∀ n ∈ names, (env.deleteCmd n).code = 0) :
    deleteLoop env names = (names.map RemoteCmd.sshDeleteBackup, Except.ok ()) := by
  induction names with
  | nil => rfl
  | cons n rest ih =>
    have hn : (env.deleteCmd n).code = 0 := h n (List.mem_cons_self n rest)
    have hrest := ih (fun m hm => h m (List.mem_cons_of_mem n hm))
    simp [deleteLoop, runCommand, hn, hrest]

/-! ## Claims -/

/-- Claim C1: for every configuration with `maxBackups = N` and every run of
`cleanOldBackups` over a remote listing of `N + k` backup entries (`k ≥ 0`)
sorted newest-first, after cleanup exactly `N` backups remain and the
surviving set is the `N` most recently created ones: every entry beyond
index `N - 1` of the newest-first listing is deleted (the issued deletions
are exactly the entries the listing holds past the first `N`), and the
survivors are the first `N` entries, which number exactly `N`. -/
theorem cleanOldBackups_retention (cfg : Config) (env : Env) (N k : Nat)
    (hmax : cfg.maxBackups = N)
    (hcode : env.listCmd.code = 0)
    (hlen : (parseBackups env.listCmd.stdout).length = N + k)
    (hdel : ∀ n, (env.deleteCmd n).code = 0) :
    cleanOldBackups cfg env =
      RemoteCmd.sshListBackups ::
        ((parseBackups env.listCmd.stdout).drop N).map RemoteCmd.sshDeleteBackup ∧
    ((parseBackups env.listCmd.stdout).take N).length = N ∧
    (parseBackups env.listCmd.stdout).take N ++ (parseBackups env.listCmd.stdout).drop N
      = parseBackups env.listCmd.stdout := by
  subst hmax
  refine ⟨?_, ?_, List.take_append_drop _ _⟩
  · by_cases hgt : (parseBackups env.listCmd.stdout).length > cfg.maxBackups
    · have hloop := deleteLoop_all_ok env
        ((parseBackups env.listCmd.stdout).drop cfg.maxBackups) (fun n _ => hdel n)
      simp [cleanOldBackups, runCommand, hcode, hgt, hloop]
    · have hdrop : (parseBackups env.listCmd.stdout).drop cfg.maxBackups = [] :=
        List.drop_eq_nil_of_le (by omega)
      simp [cleanOldBackups, runCommand, hcode, hgt, hdrop]
  · rw [List.length_take]
    omega

/-- Witness for C1 at a listing of three entries and `maxBackups = 2`. -/
theorem cleanOldBackups_retention_witness :
    cleanOldBackups cfgStd envAllOk =
      [RemoteCmd.sshListBackups, RemoteCmd.sshDeleteBackup "b1"] ∧
    (parseBackups envAllOk.listCmd.stdout).take 2 = ["b3", "b2"] := by
  have h := cleanOldBackups_retention cfgStd envAllOk 2 1 rfl rfl (by decide)
    (fun n => rfl)
  exact ⟨by rw [h.1]; decide, by decide⟩

/-- Closed form of a dry-run `deploy`: at most the connectivity probe and one
simulated rsync are issued, and the prompt is never shown. -/
theorem deploy_dryRun_eq (cfg : Config) (env : Env) :
    deploy cfg env true =
      if cfg.host = "" then ⟨false, false, []⟩
      else if !env.localPathExists then ⟨false, false, []⟩
      else if env.echoCmd.code ≠ 0 then ⟨false, false, [RemoteCmd.sshEcho]⟩
      else
        ⟨env.rsyncCmd.code == 0, false,
         [RemoteCmd.sshEcho, RemoteCmd.rsyncSync (rsyncArgs cfg env true)]⟩ := by
  by_cases h1 : cfg.host = "" <;>
    by_cases h2 : env.localPathExists <;>
      by_cases h3 : env.echoCmd.code = 0 <;>
        by_cases h4 : env.rsyncCmd.code = 0 <;>
          simp [deploy, testConnection, runCommand, deployFiles,
            h1, h2, h3, h4]

/-- Closed form of a real (non-dry-run) `deploy`, by the first failing
step. -/
theorem deploy_real_eq (cfg : Config) (env : Env) :
    deploy cfg env false =
      if cfg.host = "" then ⟨false, false, []⟩
      else if !env.localPathExists then ⟨false, false, []⟩
      else if env.echoCmd.code ≠ 0 then ⟨false, false, [RemoteCmd.sshEcho]⟩
      else if cfg.requireConfirmation && !confirmAccepts env.answer then
        ⟨false, cfg.requireConfirmation, [RemoteCmd.sshEcho]⟩
      else if env.mkdirCmd.code ≠ 0 then
        ⟨false, cfg.requireConfirmation,
         [RemoteCmd.sshEcho, RemoteCmd.sshMkdirBackupRoot]⟩
      else if env.copyCmd.code ≠ 0 then
        ⟨false, cfg.requireConfirmation,
         [RemoteCmd.sshEcho, RemoteCmd.sshMkdirBackupRoot,
          RemoteCmd.sshCopySiteToBackup (backupName env)]⟩
      else
        ⟨env.rsyncCmd.code == 0, cfg.requireConfirmation,
         RemoteCmd.sshEcho :: RemoteCmd.sshMkdirBackupRoot ::
           RemoteCmd.sshCopySiteToBackup (backupName env) ::
             (cleanOldBackups cfg env ++
               [RemoteCmd.rsyncSync (rsyncArgs cfg env false)])⟩ := by
  by_cases h1 : cfg.host = "" <;>
    by_cases h2 : env.localPathExists <;>
      by_cases h3 : env.echoCmd.code = 0 <;>
        by_cases h4 : cfg.requireConfirmation && !confirmAccepts env.answer <;>
          by_cases h5 : env.mkdirCmd.code = 0 <;>
            by_cases h6 : env.copyCmd.code = 0 <;>
              by_cases h7 : env.rsyncCmd.code = 0 <;>
                simp [deploy, testConnection, runCommand, createBackup,
                  deployFiles, h1, h2, h3, h4, h5, h6, h7]

/-- The simulate-only modifier is always part of the dry-run rsync argument
vector (it is non-empty, so the final `filter(Boolean)` keeps it). -/
theorem dryRun_flag_mem (cfg : Config) (env : Env) :
    "--dry-run" ∈ rsyncArgs cfg env true := by
  simp [rsyncArgs]

/-- Claim C3: for every configuration, a dry-run deploy never calls
`createBackup` (no backup-root creation, no site copy, no backup deletion
appears in the issued commands), never issues a deletion against the remote
live directory (no remove-then-copy restore command), runs the
file-synchronization command only with the `--dry-run` simulate-only
modifier, and skips the interactive confirmation gate. -/
theorem deploy_dryRun_no_mutation (cfg : Config) (env : Env) :
    (deploy cfg env true).prompted = false ∧
    "--dry-run" ∈ rsyncArgs cfg env true ∧
    RemoteCmd.sshMkdirBackupRoot ∉ (deploy cfg env true).trace ∧
    (∀ n, RemoteCmd.sshCopySiteToBackup n ∉ (deploy cfg env true).trace) ∧
    (∀ n, RemoteCmd.sshDeleteBackup n ∉ (deploy cfg env true).trace) ∧
    (∀ n, RemoteCmd.sshRestore n ∉ (deploy cfg env true).trace) ∧
    (∀ args, RemoteCmd.rsyncSync args ∈ (deploy cfg env true).trace →
       "--dry-run" ∈ args) := by
  rw [deploy_dryRun_eq]
  split_ifs <;> simp_all [dryRun_flag_mem]

/-- Witness for C3 in the all-success world. -/
theorem deploy_dryRun_no_mutation_witness :
    (deploy cfgStd envAllOk true).prompted = false ∧
    RemoteCmd.sshMkdirBackupRoot ∉ (deploy cfgStd envAllOk true).trace ∧
    RemoteCmd.sshRestore "b3" ∉ (deploy cfgStd envAllOk true).trace :=
  ⟨(deploy_dryRun_no_mutation cfgStd envAllOk).1,
   (deploy_dryRun_no_mutation cfgStd envAllOk).2.2.1,
   (deploy_dryRun_no_mutation cfgStd envAllOk).2.2.2.2.2.1 "b3"⟩

/-- A world where rsync fails with exit 23 after writing a diagnostic to
its stderr stream. -/
def envRsyncFail : Env :=
  { envAllOk with rsyncCmd := ⟨23, "", "rsync error: partial transfer"⟩ }

/-- Claim C5 counterexample: `deployFiles` spawns rsync with **no options**,
so `runCommand` runs it non-silent (`stdio: "inherit"`) and the
stdout/stderr accumulators are never attached.  When rsync exits 23 after
writing a diagnostic to stderr, the thrown message is exactly
`Command failed with code 23\n` — an empty output tail; it is not the
message that would carry the captured stderr.  So the error never carries
the stderr/stdout of the sync command. -/
theorem deployFiles_uncaptured_counterexample :
    envRsyncFail.rsyncCmd.stderr = "rsync error: partial transfer" ∧
    (deployFiles cfgStd envRsyncFail false).2 =
      Except.error "Command failed with code 23\n" ∧
    (deployFiles cfgStd envRsyncFail false).2 ≠
      Except.error "Command failed with code 23\nrsync error: partial transfer" := by
  refine ⟨rfl, rfl, ?_⟩
  intro h
  rw [show (deployFiles cfgStd envRsyncFail false).2 =
      Except.error "Command failed with code 23\n" from rfl] at h
  injection h with h2
  exact absurd h2 (by decide)

/-- Claim C5 (amended): for every configuration and dryRun flag,
`deployFiles` returns true when the file-synchronization command exits with
status zero, and otherwise throws an error whose message is
`Command failed with code <code>` followed by a newline and an **empty**
output tail: rsync runs non-silent (stdio inherited), so its stderr/stdout
go to the console and are never captured into the error. -/
theorem deployFiles_exit_behavior (cfg : Config) (env : Env) (dryRun : Bool) :
    (env.rsyncCmd.code = 0 →
      deployFiles cfg env dryRun =
        ([RemoteCmd.rsyncSync (rsyncArgs cfg env dryRun)], Except.ok true)) ∧
    (env.rsyncCmd.code ≠ 0 →
      deployFiles cfg env dryRun =
        ([RemoteCmd.rsyncSync (rsyncArgs cfg env dryRun)],
         Except.error
           ("Command failed with code " ++ toString env.rsyncCmd.code ++ "\n"))) := by
  constructor
  · intro h
    simp [deployFiles, runCommand, h]
  · intro h
    simp [deployFiles, runCommand, h, cmdErrorMsg]

/-- Witness for the amended C5: a zero-exit rsync returns true; an exit-23
rsync throws the bare exit-code message with the empty output tail. -/
theorem deployFiles_exit_behavior_witness :
    deployFiles cfgStd envAllOk false =
      ([RemoteCmd.rsyncSync (rsyncArgs cfgStd envAllOk false)], Except.ok true) ∧
    deployFiles cfgStd envRsyncFail false =
      ([RemoteCmd.rsyncSync (rsyncArgs cfgStd envRsyncFail false)],
       Except.error "Command failed with code 23\n") := by
  refine ⟨(deployFiles_exit_behavior cfgStd envAllOk false).1 rfl, ?_⟩
  rw [(deployFiles_exit_behavior cfgStd envRsyncFail false).2 (by decide)]
  rfl

/-- Claim C6: for every deploy invocation, if the local source directory does
not exist, `deploy` returns failure with an empty remote-command trace
(no remote command of any kind); and if the host is configured, the local
directory exists but the connectivity probe fails, `deploy` returns failure
with the probe as the only issued command — no backup or sync command. -/
theorem deploy_failfast (cfg : Config) (env : Env) (dryRun : Bool) :
    (env.localPathExists = false →
      (deploy cfg env dryRun).success = false ∧
      (deploy cfg env dryRun).trace = []) ∧
    (cfg.host ≠ "" → env.localPathExists = true → env.echoCmd.code ≠ 0 →
      (deploy cfg env dryRun).success = false ∧
      (deploy cfg env dryRun).trace = [RemoteCmd.sshEcho]) := by
  constructor
  · intro h
    by_cases h1 : cfg.host = "" <;> simp [deploy, h1, h]
  · intro h1 h2 h3
    simp [deploy, h1, h2, testConnection, runCommand, h3]

/-- A world with a missing local source directory. -/
def envNoLocal : Env :=
  { envAllOk with localPathExists := false }

/-- A world where the ssh connectivity probe exits 255. -/
def envConnFail : Env :=
  { envAllOk with echoCmd := ⟨255, "", "ssh: connection refused"⟩ }

/-- Witness for C6 at a missing local directory and a failing probe. -/
theorem deploy_failfast_witness :
    ((deploy cfgStd envNoLocal false).success = false ∧
      (deploy cfgStd envNoLocal false).trace = []) ∧
    ((deploy cfgStd envConnFail false).success = false ∧
      (deploy cfgStd envConnFail false).trace = [RemoteCmd.sshEcho]) :=
  ⟨(deploy_failfast cfgStd envNoLocal false).1 rfl,
   (deploy_failfast cfgStd envConnFail false).2 (by decide) rfl (by decide)⟩

/-- The first entry of a non-empty list is one of its entries. -/
theorem headD_mem_of_ne_nil (l : List String) (h : l ≠ []) : l.headD "" ∈ l := by
  cases l with
  | nil => exact absurd rfl h
  | cons a t => exact List.mem_cons_self a t

/-- Claim C2 counterexample: the listing holds `b3`, `b2`, `b1` and the
restore command exits 0.  The explicitly passed backup name `""` is absent
from the listing, yet `rollback` returns `true` and issues the
remove-then-copy command against the remote site directory (restoring the
newest backup instead of failing): `backupName || backups[0]` treats the
empty-string name as JavaScript-falsy, exactly like a `null` name. -/
theorem rollback_empty_name_counterexample :
    "" ∉ parseBackups envAllOk.listCmd.stdout ∧
    (rollback cfgStd envAllOk (some "")).value = true ∧
    (rollback cfgStd envAllOk (some "")).trace =
      [RemoteCmd.sshListBackups, RemoteCmd.sshRestore "b3"] := by
  refine ⟨by decide, by decide, by decide⟩

/-- Claim C2 (amended): `rollback` never throws — it is a total
boolean-valued function.  With a successful listing it returns false on an
empty listing, printing the no-backups message and issuing no further
remote command; an explicitly named **non-empty** backup name absent from
the listing returns false without issuing the remove-then-copy command; a
present non-empty name, or no name over a non-empty listing, returns true
or false exactly by the exit status of the combined remove-then-copy
command; and a failed listing returns false.  (Amendment forced by the
counterexample: an explicit empty-string name is JavaScript-falsy and
selects the newest backup instead of failing.) -/
theorem rollback_error_handling (cfg : Config) (env : Env)
    (requestedName : Option String) :
    (env.listCmd.code = 0 → parseBackups env.listCmd.stdout = [] →
      (rollback cfg env requestedName).value = false ∧
      (rollback cfg env requestedName).trace = [RemoteCmd.sshListBackups] ∧
      "❌ No backups available for rollback" ∈ (rollback cfg env requestedName).logs) ∧
    (∀ n, requestedName = some n → n ≠ "" → env.listCmd.code = 0 →
      n ∉ parseBackups env.listCmd.stdout →
      (rollback cfg env requestedName).value = false ∧
      ∀ t, RemoteCmd.sshRestore t ∉ (rollback cfg env requestedName).trace) ∧
    (∀ n, requestedName = some n → n ≠ "" → env.listCmd.code = 0 →
      n ∈ parseBackups env.listCmd.stdout →
      (rollback cfg env requestedName).value = (env.restoreCmd.code == 0)) ∧
    (requestedName = none → env.listCmd.code = 0 →
      parseBackups env.listCmd.stdout ≠ [] →
      (rollback cfg env requestedName).value = (env.restoreCmd.code == 0)) ∧
    (env.listCmd.code ≠ 0 → (rollback cfg env requestedName).value = false) := by
  refine ⟨?_, ?_, ?_, ?_, ?_⟩
  · intro hcode hemp
    simp [rollback, runCommand, hcode, hemp]
  · rintro n rfl hne hcode hmem
    by_cases hemp : parseBackups env.listCmd.stdout = []
    · simp [rollback, runCommand, hcode, hemp]
    · have hlen : (parseBackups env.listCmd.stdout).length ≠ 0 := by
        simpa [List.length_eq_zero] using hemp
      simp [rollback, runCommand, hcode, hlen, hne, hmem]
  · rintro n rfl hne hcode hmem
    have hlen : (parseBackups env.listCmd.stdout).length ≠ 0 := by
      intro h0
      rw [List.length_eq_zero] at h0
      rw [h0] at hmem
      simp at hmem
    by_cases hres : env.restoreCmd.code = 0 <;>
      simp [rollback, runCommand, hcode, hlen, hne, hmem, hres]
  · rintro rfl hcode hne
    obtain ⟨b, t, hbs⟩ := List.exists_cons_of_ne_nil hne
    by_cases hres : env.restoreCmd.code = 0 <;>
      simp [rollback, runCommand, hcode, hbs, hres]
  · intro hcode
    simp [rollback, runCommand, hcode]

/-- A world whose `ls -1t` output is empty (no backups yet). -/
def envEmptyList : Env :=
  { envAllOk with listCmd := ⟨0, "", ""⟩ }

/-- Witness for the amended C2: empty listing returns false with the
no-backups message; a missing named backup returns false; a present named
backup restores and returns true. -/
theorem rollback_error_handling_witness :
    (rollback cfgStd envEmptyList none).value = false ∧
    "❌ No backups available for rollback" ∈ (rollback cfgStd envEmptyList none).logs ∧
    (rollback cfgStd envAllOk (some "nope")).value = false ∧
    (rollback cfgStd envAllOk (some "b2")).value = true := by
  refine ⟨((rollback_error_handling cfgStd envEmptyList none).1 rfl (by decide)).1,
    ((rollback_error_handling cfgStd envEmptyList none).1 rfl (by decide)).2.2,
    ((rollback_error_handling cfgStd envAllOk (some "nope")).2.1 "nope" rfl
      (by decide) rfl (by decide)).1, ?_⟩
  rw [(rollback_error_handling cfgStd envAllOk (some "b2")).2.2.1 "b2" rfl
    (by decide) rfl (by decide)]
  decide

/-- Claim C7: for every configuration with a non-empty backup listing,
rollback called with no explicit backup name selects the first entry of the
newest-first listing (the backup with the most recent remote modification
time, `ls -1t` sorting newest first) as the restore target, and returns the
exit status of the restore command. -/
theorem rollback_selects_newest (cfg : Config) (env : Env)
    (hcode : env.listCmd.code = 0)
    (hne : parseBackups env.listCmd.stdout ≠ []) :
    (rollback cfg env none).trace =
      [RemoteCmd.sshListBackups,
       RemoteCmd.sshRestore ((parseBackups env.listCmd.stdout).headD "")] ∧
    (rollback cfg env none).value = (env.restoreCmd.code == 0) := by
  obtain ⟨b, t, hbs⟩ := List.exists_cons_of_ne_nil hne
  by_cases hres : env.restoreCmd.code = 0 <;>
    simp [rollback, runCommand, hcode, hbs, hres]

/-- Witness for C7: with listing `b3`, `b2`, `b1`, the restore target is
`b3`. -/
theorem rollback_selects_newest_witness :
    (rollback cfgStd envAllOk none).trace =
      [RemoteCmd.sshListBackups, RemoteCmd.sshRestore "b3"] ∧
    (rollback cfgStd envAllOk none).value = true := by
  have h := rollback_selects_newest cfgStd envAllOk rfl (by decide)
  exact ⟨by rw [h.1]; rfl, by rw [h.2]; rfl⟩

/-- Claim C8: any failure inside `cleanOldBackups` (listing or deletion
command error) is caught and never propagates: whenever the backup-root
creation and the site copy succeed, `createBackup` returns its backup name
for **every** listing/deletion outcome, and the enclosing real deploy still
succeeds whenever its other steps do (the listing and deletion outcomes are
unconstrained below). -/
theorem cleanup_best_effort (cfg : Config) (env : Env) :
    (env.mkdirCmd.code = 0 → env.copyCmd.code = 0 →
      (createBackup cfg env).2 = Except.ok (backupName env)) ∧
    (cfg.host ≠ "" → env.localPathExists = true → env.echoCmd.code = 0 →
      (cfg.requireConfirmation && !confirmAccepts env.answer) = false →
      env.mkdirCmd.code = 0 → env.copyCmd.code = 0 → env.rsyncCmd.code = 0 →
      (deploy cfg env false).success = true) := by
  constructor
  · intro h5 h6
    simp [createBackup, runCommand, h5, h6]
  · intro h1 h2 h3 h4 h5 h6 h7
    rw [deploy_real_eq]
    simp [h1, h2, h3, h4, h5, h6, h7]

/-- A world where the retention listing command itself fails. -/
def envListFail : Env :=
  { envAllOk with listCmd := ⟨2, "", "ls: cannot access"⟩ }

/-- Witness for C8: with a failing `ls -1t`, `createBackup` still returns
the backup name and the real deploy still succeeds. -/
theorem cleanup_best_effort_witness :
    (createBackup cfgStd envListFail).2 =
      Except.ok "backup-2025-01-02T03-04-05-006Z" ∧
    (deploy cfgStd envListFail false).success = true :=
  ⟨by rw [(cleanup_best_effort cfgStd envListFail).1 rfl rfl]; rfl,
   (cleanup_best_effort cfgStd envListFail).2 (by decide) rfl rfl (by decide)
     rfl rfl rfl⟩

/-- Claim C9: the deploy proceeds past the confirmation gate only when the
answer, lowercased, is exactly the single character `y`; every other input
— including `yes` — is treated as a decline and cancels the deploy before
any backup or sync command is issued. -/
theorem confirm_requires_exact_y (cfg : Config) (env : Env) :
    (∀ a : String, confirmAccepts a = true ↔ jsToLower a = "y") ∧
    confirmAccepts "yes" = false ∧
    confirmAccepts "Y" = true ∧
    (cfg.requireConfirmation = true → cfg.host ≠ "" →
      env.localPathExists = true → env.echoCmd.code = 0 →
      confirmAccepts env.answer = false →
      (deploy cfg env false).success = false ∧
      (deploy cfg env false).prompted = true ∧
      (deploy cfg env false).trace = [RemoteCmd.sshEcho]) := by
  refine ⟨fun a => by simp [confirmAccepts], by decide, by decide, ?_⟩
  intro h1 h2 h3 h4 h5
  rw [deploy_real_eq]
  simp [h1, h2, h3, h4, h5]

/-- A world where the operator answers `yes` at the confirmation prompt. -/
def envAnswerYes : Env :=
  { envAllOk with answer := "yes" }

/-- Witness for C9: answering `yes` cancels the deploy after the
connectivity probe, with no backup or sync command issued. -/
theorem confirm_requires_exact_y_witness :
    confirmAccepts "yes" = false ∧
    (deploy cfgStd envAnswerYes false).success = false ∧
    (deploy cfgStd envAnswerYes false).trace = [RemoteCmd.sshEcho] :=
  ⟨(confirm_requires_exact_y cfgStd envAnswerYes).2.1,
   ((confirm_requires_exact_y cfgStd envAnswerYes).2.2.2 rfl (by decide) rfl rfl
     (by decide)).1,
   ((confirm_requires_exact_y cfgStd envAnswerYes).2.2.2 rfl (by decide) rfl rfl
     (by decide)).2.2⟩

/-- The configuration of the C10 run: `maxBackups = 0`. -/
def cfgZero : Config :=
  { cfgStd with maxBackups := 0 }

/-- The world of the C10 run: every command succeeds and the retention
listing holds exactly the backup that `createBackup` just created. -/
def envZero : Env :=
  { envAllOk with listCmd := ⟨0, "backup-2025-01-02T03-04-05-006Z", ""⟩ }

/-- Claim C10: for a configuration with `maxBackups = 0`, every successful
`createBackup` is immediately followed by a cleanup that deletes every
backup in the listing (the listing count always exceeds zero), so the
cleanup deletes the backup just created when it appears in the listing; the
concrete run below shows a non-dry-run deploy succeeding while the single
listed backup — the one just created — is deleted. -/
theorem maxBackups_zero_deletes_all (cfg : Config) (env : Env)
    (hmax : cfg.maxBackups = 0)
    (hmk : env.mkdirCmd.code = 0) (hcp : env.copyCmd.code = 0)
    (hls : env.listCmd.code = 0)
    (hne : parseBackups env.listCmd.stdout ≠ [])
    (hdel : ∀ n, (env.deleteCmd n).code = 0) :
    (createBackup cfg env).2 = Except.ok (backupName env) ∧
    (createBackup cfg env).1 =
      RemoteCmd.sshMkdirBackupRoot ::
        RemoteCmd.sshCopySiteToBackup (backupName env) ::
          RemoteCmd.sshListBackups ::
            (parseBackups env.listCmd.stdout).map RemoteCmd.sshDeleteBackup ∧
    (deploy cfgZero envZero false).success = true ∧
    backupName envZero ∈ parseBackups envZero.listCmd.stdout ∧
    RemoteCmd.sshDeleteBackup (backupName envZero) ∈
      (deploy cfgZero envZero false).trace := by
  have hclean : cleanOldBackups cfg env =
      RemoteCmd.sshListBackups ::
        (parseBackups env.listCmd.stdout).map RemoteCmd.sshDeleteBackup := by
    have hloop := deleteLoop_all_ok env (parseBackups env.listCmd.stdout)
      (fun n _ => hdel n)
    simp [cleanOldBackups, runCommand, hls, hmax, List.length_pos.mpr hne, hloop]
  refine ⟨?_, ?_, by decide, by decide, by decide⟩
  · simp [createBackup, runCommand, hmk, hcp]
  · simp [createBackup, runCommand, hmk, hcp, hclean]

/-- Witness for C10 at the concrete zero-retention run. -/
theorem maxBackups_zero_deletes_all_witness :
    (createBackup cfgZero envZero).2 =
      Except.ok "backup-2025-01-02T03-04-05-006Z" ∧
    (deploy cfgZero envZero false).success = true := by
  have h := maxBackups_zero_deletes_all cfgZero envZero rfl rfl rfl rfl
    (by decide) (fun n => rfl)
  exact ⟨by rw [h.1]; rfl, h.2.2.1⟩

/-- Claim C4 counterexample: the CLI invocation `node deploy.js --config`
runs a connection test that fails (ssh exits 255), yet the process exit
code is 0 rather than 1: `main` calls `process.exit(0)` unconditionally
after `configureDeployment`, which saves the configuration whether or not
its connection test succeeded.  So the claim "exit code 1 on any failure,
failures include a failed connection test" fails for `--config`
invocations. -/
theorem mainRun_config_counterexample :
    envConnFail.echoCmd.code ≠ 0 ∧
    (testConnection envConnFail).2 = false ∧
    (mainRun ["--config"] cfgStd envConnFail).2 = [RemoteCmd.sshEcho] ∧
    (mainRun ["--config"] cfgStd envConnFail).1 = 0 :=
  ⟨by decide, rfl, rfl, rfl⟩

/-- Claim C4 (amended): `--help`/`-h` exits 0; `--config` exits 0
unconditionally — even when its connection test fails; `--rollback` exits 0
or 1 by the rollback boolean; every other invocation deploys and exits 0 on
success and 1 on any failure — in particular a failed connection test, a
declined confirmation, a failed backup copy and a failed sync each yield
exit code 1. -/
theorem mainRun_exit_codes (args : List String) (cfg : Config) (env : Env) :
    ((args.contains "--help" || args.contains "-h") = true →
      (mainRun args cfg env).1 = 0) ∧
    ((args.contains "--help" || args.contains "-h") = false →
      args.contains "--config" = true → (mainRun args cfg env).1 = 0) ∧
    ((args.contains "--help" || args.contains "-h") = false →
      args.contains "--config" = false → args.contains "--rollback" = true →
      (mainRun args cfg env).1 = if (rollback cfg env none).value then 0 else 1) ∧
    ((args.contains "--help" || args.contains "-h") = false →
      args.contains "--config" = false → args.contains "--rollback" = false →
      (mainRun args cfg env).1 =
        if (deploy cfg env (args.contains "--dry-run")).success then 0 else 1) ∧
    ((args.contains "--help" || args.contains "-h") = false →
      args.contains "--config" = false → args.contains "--rollback" = false →
      cfg.host ≠ "" → env.localPathExists = true → env.echoCmd.code ≠ 0 →
      (mainRun args cfg env).1 = 1) ∧
    ((args.contains "--help" || args.contains "-h") = false →
      args.contains "--config" = false → args.contains "--rollback" = false →
      args.contains "--dry-run" = false →
      cfg.host ≠ "" → env.localPathExists = true → env.echoCmd.code = 0 →
      cfg.requireConfirmation = true → confirmAccepts env.answer = false →
      (mainRun args cfg env).1 = 1) ∧
    ((args.contains "--help" || args.contains "-h") = false →
      args.contains "--config" = false → args.contains "--rollback" = false →
      args.contains "--dry-run" = false →
      cfg.host ≠ "" → env.localPathExists = true → env.echoCmd.code = 0 →
      (cfg.requireConfirmation && !confirmAccepts env.answer) = false →
      env.mkdirCmd.code = 0 → env.copyCmd.code ≠ 0 →
      (mainRun args cfg env).1 = 1) ∧
    ((args.contains "--help" || args.contains "-h") = false →
      args.contains "--config" = false → args.contains "--rollback" = false →
      args.contains "--dry-run" = false →
      cfg.host ≠ "" → env.localPathExists = true → env.echoCmd.code = 0 →
      (cfg.requireConfirmation && !confirmAccepts env.answer) = false →
      env.mkdirCmd.code = 0 → env.copyCmd.code = 0 → env.rsyncCmd.code ≠ 0 →
      (mainRun args cfg env).1 = 1) := by
  refine ⟨?_, ?_, ?_, ?_, ?_, ?_, ?_, ?_⟩
  · intro h
    simp_all [mainRun]
  · intro h1 h2
    simp_all [mainRun]
  · intro h1 h2 h3
    simp_all [mainRun]
  · intro h1 h2 h3
    simp_all [mainRun]
  · intro h1 h2 h3 hh hl hc
    have hsucc : (deploy cfg env (args.contains "--dry-run")).success = false := by
      cases hdry : args.contains "--dry-run"
      · rw [deploy_real_eq]
        simp [hh, hl, hc]
      · rw [deploy_dryRun_eq]
        simp [hh, hl, hc]
    simp_all [mainRun]
  · intro h1 h2 h3 hdry hh hl hc hrc ha
    have hsucc : (deploy cfg env false).success = false := by
      rw [deploy_real_eq]
      simp [hh, hl, hc, hrc, ha]
    simp_all [mainRun]
  · intro h1 h2 h3 hdry hh hl hc hgate hmk hcp
    have hsucc : (deploy cfg env false).success = false := by
      rw [deploy_real_eq]
      simp [hh, hl, hc, hgate, hmk, hcp]
    simp_all [mainRun]
  · intro h1 h2 h3 hdry hh hl hc hgate hmk hcp hrs
    have hsucc : (deploy cfg env false).success = false := by
      rw [deploy_real_eq]
      simp [hh, hl, hc, hgate, hmk, hcp, hrs]
    simp_all [mainRun]

/-- A world where the backup copy command fails. -/
def envCopyFail : Env :=
  { envAllOk with copyCmd := ⟨1, "", "cp: no space left on device"⟩ }

/-- Witness for the amended C4: exit codes at concrete invocations of every
kind — help, config with failed connection, rollback, successful deploy,
failed connection, declined confirmation, failed backup copy, failed
sync. -/
theorem mainRun_exit_codes_witness :
    (mainRun ["--help"] cfgStd envAllOk).1 = 0 ∧
    (mainRun ["--config"] cfgStd envConnFail).1 = 0 ∧
    (mainRun ["--rollback"] cfgStd envAllOk).1 = 0 ∧
    (mainRun [] cfgStd envAllOk).1 = 0 ∧
    (mainRun [] cfgStd envConnFail).1 = 1 ∧
    (mainRun [] cfgStd envAnswerYes).1 = 1 ∧
    (mainRun [] cfgStd envCopyFail).1 = 1 ∧
    (mainRun [] cfgStd envRsyncFail).1 = 1 := by
  refine ⟨(mainRun_exit_codes ["--help"] cfgStd envAllOk).1 (by decide),
    (mainRun_exit_codes ["--config"] cfgStd envConnFail).2.1 (by decide) (by decide),
    ?_, ?_,
    (mainRun_exit_codes [] cfgStd envConnFail).2.2.2.2.1 (by decide) (by decide)
      (by decide) (by decide) rfl (by decide),
    (mainRun_exit_codes [] cfgStd envAnswerYes).2.2.2.2.2.1 (by decide) (by decide)
      (by decide) (by decide) (by decide) rfl rfl rfl (by decide),
    (mainRun_exit_codes [] cfgStd envCopyFail).2.2.2.2.2.2.1 (by decide) (by decide)
      (by decide) (by decide) (by decide) rfl rfl (by decide) rfl (by decide),
    (mainRun_exit_codes [] cfgStd envRsyncFail).2.2.2.2.2.2.2 (by decide) (by decide)
      (by decide) (by decide) (by decide) rfl rfl (by decide) rfl rfl (by decide)⟩
  · rw [(mainRun_exit_codes ["--rollback"] cfgStd envAllOk).2.2.1 (by decide)
      (by decide) (by decide)]
    rfl
  · rw [(mainRun_exit_codes [] cfgStd envAllOk).2.2.2.1 (by decide) (by decide)
      (by decide)]
    rfl

end DeployJs
